import Mathlib

/-!
Verification of the ts-ws-machine repository (src/src/index.ts): a WebSocket
client modelled as a finite state machine with a pure transition function
(`update`), an effect interpreter (`wsMachine`) and a backoff function
(`calcBackoff`).

JavaScript numbers are modelled as rationals (ℚ); the claims at hand never
depend on floating-point rounding.  Callbacks are modelled by their presence
and by the actions they re-inject.
-/

namespace WsM

/-- The five state tags of the `States` union (index.ts lines 16-22). -/
inductive Tag
  | INITIAL
  | CONNECTING
  | OPEN
  | CLOSED
  | RECONNECTING
deriving DecidableEq, Repr

/-- The seven payload-free actions of the `Actions` union (index.ts lines 26-34). -/
inductive Action
  | CONNECT
  | OPEN
  | HEARTBEAT
  | PING_TIMEOUT
  | PONG_TIMEOUT
  | CLOSE
  | RECONNECT
deriving DecidableEq, Repr

/-- TimeoutKey = "ping" | "pong" | "connect" (index.ts line 38). -/
inductive TimeoutKey
  | ping
  | pong
  | connect
deriving DecidableEq, Repr

/-- BackoffFn = (attempt: number, randSeed: number) => number (index.ts line 5). -/
def BackoffFn : Type := ℚ → ℚ → ℚ

/-- The Context record carried by every state (index.ts lines 7-14). -/
structure Context where
  url : String
  reconnectAttempt : ℚ
  randSeed : ℚ
  pingTimeoutMillis : ℚ
  pongTimeoutMillis : ℚ
  backoffFn : BackoffFn

/-- A State is a tag together with its Context (the `States` union members
all carry a Context, index.ts lines 16-24). -/
structure State where
  tag : Tag
  ctx : Context

/-- The Effects union (index.ts lines 40-58). -/
inductive Effect
  | CONNECT_WS (url : String) (onOpen onClose onPongMessage : Action)
  | SCHEDULE_TIMEOUT (key : TimeoutKey) (timeoutMillis : ℚ) (onTimeout : Action)
  | SEND_PING
  | CLEAR_TIMEOUT (key : TimeoutKey)
  | TRIGGER_ACTION (action : Action)
deriving DecidableEq, Repr

/-- calcBackoff with its maxVal argument made explicit
(index.ts lines 60-69; maxVal is an optional argument defaulting to 30000). -/
def calcBackoffMax (attempt randSeed maxVal : ℚ) : ℚ :=
  if attempt = 0 then 0
  else min maxVal (attempt ^ 2 * 1000) + 2000 * randSeed

/-- calcBackoff as called with two arguments, maxVal taking its default 30000. -/
def calcBackoff (attempt randSeed : ℚ) : ℚ :=
  calcBackoffMax attempt randSeed 30000

/-- The `connect` helper (index.ts lines 71-82): enter CONNECTING and emit
CLEAR_TIMEOUT(connect) followed by CONNECT_WS wired to OPEN/CLOSE/HEARTBEAT. -/
def connect (state : State) : State × List Effect :=
  (⟨Tag.CONNECTING, state.ctx⟩,
   [Effect.CLEAR_TIMEOUT TimeoutKey.connect,
    Effect.CONNECT_WS state.ctx.url Action.OPEN Action.CLOSE Action.HEARTBEAT])

/-- clearTimeoutEffect (index.ts line 84). -/
def clearTimeoutEffect (key : TimeoutKey) : Effect :=
  Effect.CLEAR_TIMEOUT key

/-- clearAllTimeoutsEffects (index.ts lines 86-90). -/
def clearAllTimeoutsEffects : List Effect :=
  [clearTimeoutEffect TimeoutKey.connect,
   clearTimeoutEffect TimeoutKey.ping,
   clearTimeoutEffect TimeoutKey.pong]

/-- scheduleConnect (index.ts lines 92-97): backoff delay computed from the
state's (pre-increment) reconnectAttempt plus one. -/
def scheduleConnect (state : State) : Effect :=
  Effect.SCHEDULE_TIMEOUT TimeoutKey.connect
    (state.ctx.backoffFn (state.ctx.reconnectAttempt + 1) state.ctx.randSeed)
    Action.CONNECT

/-- schedulePing (index.ts lines 99-104). -/
def schedulePing (state : State) : Effect :=
  Effect.SCHEDULE_TIMEOUT TimeoutKey.ping state.ctx.pingTimeoutMillis
    Action.PING_TIMEOUT

/-- waitForPong (index.ts lines 106-111). -/
def waitForPong (state : State) : Effect :=
  Effect.SCHEDULE_TIMEOUT TimeoutKey.pong state.ctx.pongTimeoutMillis
    Action.PONG_TIMEOUT

/-- The pure transition function `update` (index.ts lines 113-177).  The
source is a `States.match` on the state tag whose arms are `Actions.match`es
on the action with a `default` arm returning `[state, []]`; that nesting is
flattened here into one match on the (tag, action) pair, the wildcard row
standing for all the `default` arms. -/
def update (action : Action) (state : State) : State × List Effect :=
  match state.tag, action with
  | Tag.INITIAL, Action.CONNECT => connect state
  | Tag.CONNECTING, Action.OPEN =>
      (⟨Tag.OPEN, { state.ctx with reconnectAttempt := 0 }⟩,
       [schedulePing state])
  | Tag.CONNECTING, Action.CLOSE =>
      (⟨Tag.CLOSED, state.ctx⟩, clearAllTimeoutsEffects)
  | Tag.OPEN, Action.PING_TIMEOUT =>
      (state,
       [Effect.CLEAR_TIMEOUT TimeoutKey.ping,
        Effect.SEND_PING,
        waitForPong state])
  | Tag.OPEN, Action.PONG_TIMEOUT =>
      (state,
       [Effect.TRIGGER_ACTION Action.CLOSE,
        Effect.TRIGGER_ACTION Action.RECONNECT])
  | Tag.OPEN, Action.HEARTBEAT =>
      (state,
       [Effect.CLEAR_TIMEOUT TimeoutKey.ping,
        Effect.CLEAR_TIMEOUT TimeoutKey.pong,
        schedulePing state])
  | Tag.OPEN, Action.CLOSE =>
      (⟨Tag.CLOSED, state.ctx⟩, clearAllTimeoutsEffects)
  | Tag.CLOSED, Action.RECONNECT =>
      (⟨Tag.RECONNECTING,
        { state.ctx with reconnectAttempt := state.ctx.reconnectAttempt + 1 }⟩,
       [scheduleConnect state])
  | Tag.RECONNECTING, Action.CONNECT => connect state
  | _, _ => (state, [])

/-- The transition table of spec section 4.2, transcribed row by row from the
spec's words (nine listed rows; every unlisted pair is `(state, [])`).
Written independently of `update` so that the two can be compared. -/
def updateSpecTable (action : Action) (state : State) : State × List Effect :=
  match state.tag, action with
  | Tag.INITIAL, Action.CONNECT =>
      (⟨Tag.CONNECTING, state.ctx⟩,
       [Effect.CLEAR_TIMEOUT TimeoutKey.connect,
        Effect.CONNECT_WS state.ctx.url Action.OPEN Action.CLOSE Action.HEARTBEAT])
  | Tag.CONNECTING, Action.OPEN =>
      (⟨Tag.OPEN, { state.ctx with reconnectAttempt := 0 }⟩,
       [Effect.SCHEDULE_TIMEOUT TimeoutKey.ping state.ctx.pingTimeoutMillis
          Action.PING_TIMEOUT])
  | Tag.CONNECTING, Action.CLOSE =>
      (⟨Tag.CLOSED, state.ctx⟩,
       [Effect.CLEAR_TIMEOUT TimeoutKey.connect,
        Effect.CLEAR_TIMEOUT TimeoutKey.ping,
        Effect.CLEAR_TIMEOUT TimeoutKey.pong])
  | Tag.OPEN, Action.PING_TIMEOUT =>
      (state,
       [Effect.CLEAR_TIMEOUT TimeoutKey.ping,
        Effect.SEND_PING,
        Effect.SCHEDULE_TIMEOUT TimeoutKey.pong state.ctx.pongTimeoutMillis
          Action.PONG_TIMEOUT])
  | Tag.OPEN, Action.PONG_TIMEOUT =>
      (state,
       [Effect.TRIGGER_ACTION Action.CLOSE,
        Effect.TRIGGER_ACTION Action.RECONNECT])
  | Tag.OPEN, Action.HEARTBEAT =>
      (state,
       [Effect.CLEAR_TIMEOUT TimeoutKey.ping,
        Effect.CLEAR_TIMEOUT TimeoutKey.pong,
        Effect.SCHEDULE_TIMEOUT TimeoutKey.ping state.ctx.pingTimeoutMillis
          Action.PING_TIMEOUT])
  | Tag.OPEN, Action.CLOSE =>
      (⟨Tag.CLOSED, state.ctx⟩,
       [Effect.CLEAR_TIMEOUT TimeoutKey.connect,
        Effect.CLEAR_TIMEOUT TimeoutKey.ping,
        Effect.CLEAR_TIMEOUT TimeoutKey.pong])
  | Tag.CLOSED, Action.RECONNECT =>
      (⟨Tag.RECONNECTING,
        { state.ctx with reconnectAttempt := state.ctx.reconnectAttempt + 1 }⟩,
       [Effect.SCHEDULE_TIMEOUT TimeoutKey.connect
          (state.ctx.backoffFn (state.ctx.reconnectAttempt + 1) state.ctx.randSeed)
          Action.CONNECT])
  | Tag.RECONNECTING, Action.CONNECT =>
      (⟨Tag.CONNECTING, state.ctx⟩,
       [Effect.CLEAR_TIMEOUT TimeoutKey.connect,
        Effect.CONNECT_WS state.ctx.url Action.OPEN Action.CLOSE Action.HEARTBEAT])
  | _, _ => (state, [])

/-- The Config consumed by wsMachine (index.ts lines 179-186): url, ping and
pong timeouts and backoffFn are required (picked from Context); pingMsg is
optional; onMessage is a required callback (modelled by the handler predicate
`onMessageForwards` below); onStateChange is an optional observer, modelled
by its presence. -/
structure Config where
  url : String
  pingTimeoutMillis : ℚ
  pongTimeoutMillis : ℚ
  backoffFn : BackoffFn
  pingMsg : Option String
  hasOnStateChange : Bool

/-- A live WebSocket as created by the CONNECT_WS branch of handleEffect
(index.ts lines 241-268): its url, the three actions its event handlers
re-inject, whether its listeners are still attached (removeEventListeners
detaches them) and whether close() has been called on it. -/
structure Socket where
  url : String
  onOpen : Action
  onClose : Action
  onPongMessage : Action
  listeners : Bool
  closed : Bool
deriving DecidableEq, Repr

/-- The live-timer map of the interpreter (index.ts line 200), modelled as a
set of live keys as in spec section 3: a slot is some onTimeout action while
the timer is pending, none once cleared or fired. -/
structure Timers where
  ping : Option Action
  pong : Option Action
  connect : Option Action
deriving DecidableEq, Repr

def Timers.empty : Timers := ⟨none, none, none⟩

def Timers.get (key : TimeoutKey) (t : Timers) : Option Action :=
  match key with
  | TimeoutKey.ping => t.ping
  | TimeoutKey.pong => t.pong
  | TimeoutKey.connect => t.connect

def Timers.set (key : TimeoutKey) (a : Action) (t : Timers) : Timers :=
  match key with
  | TimeoutKey.ping => { t with ping := some a }
  | TimeoutKey.pong => { t with pong := some a }
  | TimeoutKey.connect => { t with connect := some a }

def Timers.clear (key : TimeoutKey) (t : Timers) : Timers :=
  match key with
  | TimeoutKey.ping => { t with ping := none }
  | TimeoutKey.pong => { t with pong := none }
  | TimeoutKey.connect => { t with connect := none }

/-- The mutable runtime owned by one wsMachine instance (index.ts lines
197-203): the optional socket handle `ws`, the timer map `timeouts`, the
observable state cell `wsState` and whether the onStateChange observer is
attached.  The extra field `dup` instruments the timer invariant of spec
section 3: it is set (and never reset) the moment a SCHEDULE_TIMEOUT
executes for a key whose timer is still live. -/
structure Machine where
  ws : Option Socket
  timeouts : Timers
  wsState : State
  observer : Bool
  dup : Bool

/-- handleEffect (index.ts lines 239-287) for the non-recursive effects.
CONNECT_WS with an existing socket first detaches its listeners, clears all
timers and closes it, then installs the fresh socket; SCHEDULE_TIMEOUT
stores the timer, overwriting (and flagging via `dup`) any live one;
SEND_PING touches only the wire; CLEAR_TIMEOUT cancels the stored timer.
TRIGGER_ACTION is interpreted by `runEffects`. -/
def applyEffect (e : Effect) (m : Machine) : Machine :=
  match e with
  | Effect.CONNECT_WS url onOpen onClose onPong =>
      let m1 :=
        match m.ws with
        | some s =>
            { m with
              ws := some { s with listeners := false, closed := true },
              timeouts := Timers.empty }
        | none => m
      { m1 with ws := some ⟨url, onOpen, onClose, onPong, true, false⟩ }
  | Effect.SCHEDULE_TIMEOUT key _ onTimeout =>
      { m with
        dup := m.dup || (m.timeouts.get key).isSome,
        timeouts := m.timeouts.set key onTimeout }
  | Effect.SEND_PING => m
  | Effect.CLEAR_TIMEOUT key => { m with timeouts := m.timeouts.clear key }
  | Effect.TRIGGER_ACTION _ => m

/-- handleEffects together with the synchronous recursion of transition via
TRIGGER_ACTION (index.ts lines 233-237, 285, 289-293), as a worklist: a
TRIGGER_ACTION applies `update` to the current state and splices the inner
effect batch in front of the remaining outer effects, exactly the order the
recursive call produces.  The fuel bounds the recursion depth; it is never
exhausted from reachable machines (the trigger graph is acyclic and batches
have at most three effects). -/
def runEffects (fuel : Nat) : List Effect → Machine → Machine :=
  match fuel with
  | 0 => fun _ m => m
  | Nat.succ n => fun es m =>
      match es with
      | [] => m
      | Effect.TRIGGER_ACTION a :: rest =>
          runEffects n ((update a m.wsState).2 ++ rest)
            { m with wsState := (update a m.wsState).1 }
      | e :: rest => runEffects n rest (applyEffect e m)

def effectFuel : Nat := 16

/-- transition (index.ts lines 233-237): apply update to the current state,
swap the new state into the cell, then run the effect batch. -/
def transition (a : Action) (m : Machine) : Machine :=
  runEffects effectFuel (update a m.wsState).2
    { m with wsState := (update a m.wsState).1 }

/-- The machine as constructed by wsMachine (index.ts lines 197-203): no
socket, empty timer map, INITIAL state built by spreading the config with
reconnectAttempt 0 and a fresh random seed, observer attached exactly when
the config carries onStateChange (lines 295-297). -/
def wsMachineInit (config : Config) (seed : ℚ) : Machine :=
  { ws := none
    timeouts := Timers.empty
    wsState := ⟨Tag.INITIAL,
      { url := config.url
        reconnectAttempt := 0
        randSeed := seed
        pingTimeoutMillis := config.pingTimeoutMillis
        pongTimeoutMillis := config.pongTimeoutMillis
        backoffFn := config.backoffFn }⟩
    observer := config.hasOnStateChange
    dup := false }

/-- The facade operation disconnect (index.ts lines 303-313): always remove
the state-change observer; when a socket exists, additionally detach its
listeners, clear all timers, force the state to INITIAL with
reconnectAttempt 0 and close the socket; when no socket exists nothing else
happens. -/
def disconnect (m : Machine) : Machine :=
  match m.ws with
  | some s =>
      { m with
        observer := false,
        ws := some { s with listeners := false, closed := true },
        timeouts := Timers.empty,
        wsState := ⟨Tag.INITIAL, { m.wsState.ctx with reconnectAttempt := 0 }⟩ }
  | none => { m with observer := false }

/-- The asynchronous events that can re-enter a machine instance: the facade
calls connect()/disconnect(), a pending timer fires (consuming its slot,
index.ts line 273), or a socket event fires on a socket whose listeners are
still attached: open re-injects onOpen (line 250), close re-injects onClose
and then RECONNECT (lines 253-257), message re-injects onPongMessage
(lines 260-266). -/
inductive Ev
  | connectCall
  | disconnectCall
  | timerFire (key : TimeoutKey)
  | sockOpen
  | sockClose
  | sockMessage

/-- One asynchronous event applied to a machine; events whose trigger is not
armed (no pending timer for the key, no socket, listeners detached) leave
the machine unchanged. -/
def stepEv (ev : Ev) (m : Machine) : Machine :=
  match ev with
  | Ev.connectCall => transition Action.CONNECT m
  | Ev.disconnectCall => disconnect m
  | Ev.timerFire key =>
      match m.timeouts.get key with
      | some a => transition a { m with timeouts := m.timeouts.clear key }
      | none => m
  | Ev.sockOpen =>
      match m.ws with
      | some s => if s.listeners then transition s.onOpen m else m
      | none => m
  | Ev.sockClose =>
      match m.ws with
      | some s =>
          if s.listeners then transition Action.RECONNECT (transition s.onClose m)
          else m
      | none => m
  | Ev.sockMessage =>
      match m.ws with
      | some s => if s.listeners then transition s.onPongMessage m else m
      | none => m

/-- The machines reachable from a freshly constructed wsMachine instance by
any interleaving of facade calls, timer firings and socket events. -/
inductive Reachable (config : Config) (seed : ℚ) : Machine → Prop
  | init : Reachable config seed (wsMachineInit config seed)
  | step {m : Machine} (ev : Ev) :
      Reachable config seed m → Reachable config seed (stepEv ev m)

/-- The message handler installed by CONNECT_WS (index.ts lines 260-266):
the inbound payload reaches config.onMessage exactly when this returns true.
The source compares the payload against the hardcoded string literal "pong";
the Config type has no pong-payload field at all. -/
def onMessageForwards (msg : String) : Bool :=
  msg != "pong"

/-- The property names of the object returned by wsMachine (index.ts lines
300-314), which realizes the WsMachine type (lines 188-192): exactly
connect, currentState and disconnect. -/
def wsMachineOps : List String :=
  ["connect", "currentState", "disconnect"]

/-- Runtime view of the config's backoff field: TypeScript types are erased
at runtime, so a caller can pass a config object without backoffFn (the
scenario the spec describes); the field then reads as undefined, modelled as
none. -/
structure ConfigRT where
  backoffFn : Option BackoffFn

/-- What wsMachine installs as the machine's backoff function (index.ts line
199): the config object is spread into the initial Context unchanged, so the
stored field is exactly the one passed in; no default is applied anywhere in
wsMachine. -/
def wsMachineBackoffFn (config : ConfigRT) : Option BackoffFn :=
  config.backoffFn

/-- Canonical timer slots: a pending timer for a key always carries the one
action the source ever schedules for that key (scheduleConnect, schedulePing,
waitForPong). -/
def Timers.Canonical (t : Timers) : Prop :=
  (t.ping = none ∨ t.ping = some Action.PING_TIMEOUT) ∧
  (t.pong = none ∨ t.pong = some Action.PONG_TIMEOUT) ∧
  (t.connect = none ∨ t.connect = some Action.CONNECT)

/-- Canonical socket wiring: every socket the interpreter creates is wired by
the connect helper to re-inject OPEN, CLOSE and HEARTBEAT. -/
def Socket.Canonical (s : Socket) : Prop :=
  s.onOpen = Action.OPEN ∧ s.onClose = Action.CLOSE ∧
  s.onPongMessage = Action.HEARTBEAT

/-- The inductive invariant of a running wsMachine instance: a machine that
never connected is pristine; CONNECTING never has ping or pong timers;
CLOSED never has a connect timer; OPEN never has ping and pong timers
simultaneously; reconnectAttempt is a natural number; no SCHEDULE_TIMEOUT
ever overwrote a live timer (dup stays false); and all timer slots and
sockets carry their canonical actions. -/
structure Inv (m : Machine) : Prop where
  wsNone : m.ws = none →
    m.wsState.tag = Tag.INITIAL ∧ m.timeouts.ping = none ∧
    m.timeouts.pong = none ∧ m.timeouts.connect = none ∧
    m.wsState.ctx.reconnectAttempt = 0
  connPingPong : m.wsState.tag = Tag.CONNECTING →
    m.timeouts.ping = none ∧ m.timeouts.pong = none
  closedConn : m.wsState.tag = Tag.CLOSED → m.timeouts.connect = none
  openExcl : m.wsState.tag = Tag.OPEN →
    m.timeouts.ping = none ∨ m.timeouts.pong = none
  raNat : ∃ n : ℕ, m.wsState.ctx.reconnectAttempt = (n : ℚ)
  noDup : m.dup = false
  slots : Timers.Canonical m.timeouts
  socks : ∀ s, m.ws = some s → Socket.Canonical s

/-- A freshly constructed machine satisfies the invariant. -/
theorem invInit (config : Config) (seed : ℚ) : Inv (wsMachineInit config seed) :=
  ⟨fun _ => ⟨rfl, rfl, rfl, rfl, rfl⟩,
   fun hc => Tag.noConfusion hc,
   fun hc => Tag.noConfusion hc,
   fun hc => Tag.noConfusion hc,
   ⟨0, by norm_num [wsMachineInit]⟩,
   rfl,
   ⟨Or.inl rfl, Or.inl rfl, Or.inl rfl⟩,
   fun _ hs => Option.noConfusion hs⟩

/-- Every asynchronous event preserves the invariant. -/
theorem invStep (ev : Ev) (m : Machine) (h : Inv m) : Inv (stepEv ev m) := by
  obtain ⟨ws, ⟨tp, tq, tc⟩, ⟨tag, ctx⟩, obs, dup⟩ := m
  obtain ⟨h1, h2, h3, h4, h6, h7, h8, h9⟩ := h
  subst h7
  obtain ⟨c1, c2, c3⟩ := h8
  cases ev with
  | connectCall =>
      cases tag with
      | INITIAL =>
          cases ws with
          | none =>
              obtain ⟨-, hp, hq, hc, -⟩ := h1 rfl
              subst hp; subst hq; subst hc
              simp [stepEv, transition, update, runEffects, effectFuel, connect,
                applyEffect, Timers.clear, Timers.get, Timers.set, Timers.empty,
                clearAllTimeoutsEffects, clearTimeoutEffect]
              exact ⟨fun hw => Option.noConfusion hw, fun _ => ⟨rfl, rfl⟩, fun hc => Tag.noConfusion hc,
                fun hc => Tag.noConfusion hc, h6, rfl, ⟨Or.inl rfl, Or.inl rfl, Or.inl rfl⟩,
                fun s hs => by cases hs; exact ⟨rfl, rfl, rfl⟩⟩
          | some s =>
              simp [stepEv, transition, update, runEffects, effectFuel, connect,
                applyEffect, Timers.clear, Timers.get, Timers.set, Timers.empty,
                clearAllTimeoutsEffects, clearTimeoutEffect]
              exact ⟨fun hw => Option.noConfusion hw, fun _ => ⟨rfl, rfl⟩, fun hc => Tag.noConfusion hc,
                fun hc => Tag.noConfusion hc, h6, rfl, ⟨Or.inl rfl, Or.inl rfl, Or.inl rfl⟩,
                fun s hs => by cases hs; exact ⟨rfl, rfl, rfl⟩⟩
      | CONNECTING =>
          exact ⟨h1, h2, h3, h4, h6, rfl, ⟨c1, c2, c3⟩, h9⟩
      | OPEN =>
          exact ⟨h1, h2, h3, h4, h6, rfl, ⟨c1, c2, c3⟩, h9⟩
      | CLOSED =>
          exact ⟨h1, h2, h3, h4, h6, rfl, ⟨c1, c2, c3⟩, h9⟩
      | RECONNECTING =>
          cases ws with
          | none => exact Tag.noConfusion (h1 rfl).1
          | some s =>
              simp [stepEv, transition, update, runEffects, effectFuel, connect,
                applyEffect, Timers.clear, Timers.get, Timers.set, Timers.empty,
                clearAllTimeoutsEffects, clearTimeoutEffect]
              exact ⟨fun hw => Option.noConfusion hw, fun _ => ⟨rfl, rfl⟩, fun hc => Tag.noConfusion hc,
                fun hc => Tag.noConfusion hc, h6, rfl, ⟨Or.inl rfl, Or.inl rfl, Or.inl rfl⟩,
                fun s hs => by cases hs; exact ⟨rfl, rfl, rfl⟩⟩
  | disconnectCall =>
      cases ws with
      | none =>
          exact ⟨h1, h2, h3, h4, h6, rfl, ⟨c1, c2, c3⟩, h9⟩
      | some s =>
          obtain ⟨o1, o2, o3⟩ := h9 s rfl
          simp [stepEv, disconnect]
          exact ⟨fun hw => Option.noConfusion hw, fun _ => ⟨rfl, rfl⟩, fun _ => rfl,
            fun _ => Or.inl rfl, ⟨0, by norm_num⟩, rfl,
            ⟨Or.inl rfl, Or.inl rfl, Or.inl rfl⟩,
            fun s2 hs => by cases hs; exact ⟨o1, o2, o3⟩⟩
  | timerFire key =>
      cases key with
      | ping =>
          rcases c1 with hp | hp <;> subst hp
          · exact ⟨h1, h2, h3, h4, h6, rfl, ⟨Or.inl rfl, c2, c3⟩, h9⟩
          · cases tag with
            | INITIAL =>
                simp [stepEv, transition, update, runEffects, effectFuel,
                  applyEffect, Timers.clear, Timers.get]
                exact ⟨fun hw => Option.noConfusion (h1 hw).2.1, fun hc => Tag.noConfusion hc,
                  fun hc => Tag.noConfusion hc, fun hc => Tag.noConfusion hc, h6, rfl,
                  ⟨Or.inl rfl, c2, c3⟩, h9⟩
            | CONNECTING => exact Option.noConfusion (h2 rfl).1
            | OPEN =>
                have hq : tq = none := by
                  rcases h4 rfl with hcontra | hq
                  · exact Option.noConfusion hcontra
                  · exact hq
                subst hq
                simp [stepEv, transition, update, runEffects, effectFuel,
                  applyEffect, Timers.clear, Timers.get, Timers.set, waitForPong]
                exact ⟨fun hw => Tag.noConfusion (h1 hw).1, fun hc => Tag.noConfusion hc,
                  fun hc => Tag.noConfusion hc, fun _ => Or.inl rfl, h6, rfl,
                  ⟨Or.inl rfl, Or.inr rfl, c3⟩, h9⟩
            | CLOSED =>
                simp [stepEv, transition, update, runEffects, effectFuel,
                  applyEffect, Timers.clear, Timers.get]
                exact ⟨fun hw => Tag.noConfusion (h1 hw).1, fun hc => Tag.noConfusion hc,
                  fun _ => h3 rfl, fun hc => Tag.noConfusion hc, h6, rfl,
                  ⟨Or.inl rfl, c2, c3⟩, h9⟩
            | RECONNECTING =>
                simp [stepEv, transition, update, runEffects, effectFuel,
                  applyEffect, Timers.clear, Timers.get]
                exact ⟨fun hw => Tag.noConfusion (h1 hw).1, fun hc => Tag.noConfusion hc,
                  fun hc => Tag.noConfusion hc, fun hc => Tag.noConfusion hc, h6, rfl,
                  ⟨Or.inl rfl, c2, c3⟩, h9⟩
      | pong =>
          rcases c2 with hq | hq <;> subst hq
          · exact ⟨h1, h2, h3, h4, h6, rfl, ⟨c1, Or.inl rfl, c3⟩, h9⟩
          · cases tag with
            | INITIAL =>
                simp [stepEv, transition, update, runEffects, effectFuel,
                  applyEffect, Timers.clear, Timers.get]
                exact ⟨fun hw => Option.noConfusion (h1 hw).2.2.1, fun hc => Tag.noConfusion hc,
                  fun hc => Tag.noConfusion hc, fun hc => Tag.noConfusion hc, h6, rfl,
                  ⟨c1, Or.inl rfl, c3⟩, h9⟩
            | CONNECTING => exact Option.noConfusion (h2 rfl).2
            | OPEN =>
                obtain ⟨n, hn⟩ := h6
                simp [stepEv, transition, update, runEffects, effectFuel,
                  applyEffect, Timers.clear, Timers.get, Timers.set, Timers.empty,
                  clearAllTimeoutsEffects, clearTimeoutEffect, scheduleConnect]
                exact ⟨fun hw => Tag.noConfusion (h1 hw).1, fun hc => Tag.noConfusion hc,
                  fun hc => Tag.noConfusion hc, fun hc => Tag.noConfusion hc,
                  ⟨n + 1, by rw [hn]; push_cast; ring⟩, rfl,
                  ⟨Or.inl rfl, Or.inl rfl, Or.inr rfl⟩, h9⟩
            | CLOSED =>
                simp [stepEv, transition, update, runEffects, effectFuel,
                  applyEffect, Timers.clear, Timers.get]
                exact ⟨fun hw => Tag.noConfusion (h1 hw).1, fun hc => Tag.noConfusion hc,
                  fun _ => h3 rfl, fun hc => Tag.noConfusion hc, h6, rfl,
                  ⟨c1, Or.inl rfl, c3⟩, h9⟩
            | RECONNECTING =>
                simp [stepEv, transition, update, runEffects, effectFuel,
                  applyEffect, Timers.clear, Timers.get]
                exact ⟨fun hw => Tag.noConfusion (h1 hw).1, fun hc => Tag.noConfusion hc,
                  fun hc => Tag.noConfusion hc, fun hc => Tag.noConfusion hc, h6, rfl,
                  ⟨c1, Or.inl rfl, c3⟩, h9⟩
      | connect =>
          rcases c3 with hc | hc <;> subst hc
          · exact ⟨h1, h2, h3, h4, h6, rfl, ⟨c1, c2, Or.inl rfl⟩, h9⟩
          · cases tag with
            | INITIAL =>
                cases ws with
                | none => exact Option.noConfusion (h1 rfl).2.2.2.1
                | some s =>
                    simp [stepEv, transition, update, runEffects, effectFuel,
                      connect, applyEffect, Timers.clear, Timers.get, Timers.set,
                      Timers.empty, clearAllTimeoutsEffects, clearTimeoutEffect]
                    exact ⟨fun hw => Option.noConfusion hw, fun _ => ⟨rfl, rfl⟩,
                      fun hcl => Tag.noConfusion hcl, fun hcl => Tag.noConfusion hcl, h6, rfl,
                      ⟨Or.inl rfl, Or.inl rfl, Or.inl rfl⟩,
                      fun s2 hs => by cases hs; exact ⟨rfl, rfl, rfl⟩⟩
            | CONNECTING =>
                simp [stepEv, transition, update, runEffects, effectFuel,
                  applyEffect, Timers.clear, Timers.get]
                exact ⟨fun hw => Tag.noConfusion (h1 hw).1, fun _ => h2 rfl,
                  fun hcl => Tag.noConfusion hcl, fun hcl => Tag.noConfusion hcl, h6, rfl,
                  ⟨c1, c2, Or.inl rfl⟩, h9⟩
            | OPEN =>
                simp [stepEv, transition, update, runEffects, effectFuel,
                  applyEffect, Timers.clear, Timers.get]
                exact ⟨fun hw => Tag.noConfusion (h1 hw).1, fun hcl => Tag.noConfusion hcl,
                  fun hcl => Tag.noConfusion hcl, fun _ => h4 rfl, h6, rfl,
                  ⟨c1, c2, Or.inl rfl⟩, h9⟩
            | CLOSED => exact Option.noConfusion (h3 rfl)
            | RECONNECTING =>
                cases ws with
                | none => exact Tag.noConfusion (h1 rfl).1
                | some s =>
                    simp [stepEv, transition, update, runEffects, effectFuel,
                      connect, applyEffect, Timers.clear, Timers.get, Timers.set,
                      Timers.empty, clearAllTimeoutsEffects, clearTimeoutEffect]
                    exact ⟨fun hw => Option.noConfusion hw, fun _ => ⟨rfl, rfl⟩,
                      fun hcl => Tag.noConfusion hcl, fun hcl => Tag.noConfusion hcl, h6, rfl,
                      ⟨Or.inl rfl, Or.inl rfl, Or.inl rfl⟩,
                      fun s2 hs => by cases hs; exact ⟨rfl, rfl, rfl⟩⟩
  | sockOpen =>
      cases ws with
      | none => exact ⟨h1, h2, h3, h4, h6, rfl, ⟨c1, c2, c3⟩, h9⟩
      | some s =>
          obtain ⟨surl, sOpen, sClose, sPong, sl, scl⟩ := s
          obtain ⟨o1, o2, o3⟩ := h9 ⟨surl, sOpen, sClose, sPong, sl, scl⟩ rfl
          subst o1; subst o2; subst o3
          cases sl with
          | false => exact ⟨h1, h2, h3, h4, h6, rfl, ⟨c1, c2, c3⟩, h9⟩
          | true =>
              cases tag with
              | INITIAL => exact ⟨h1, h2, h3, h4, h6, rfl, ⟨c1, c2, c3⟩, h9⟩
              | CONNECTING =>
                  obtain ⟨hp, hq⟩ := h2 rfl
                  subst hp; subst hq
                  simp [stepEv, transition, update, runEffects, effectFuel,
                    applyEffect, Timers.get, Timers.set, schedulePing]
                  exact ⟨fun hw => Option.noConfusion hw, fun hcl => Tag.noConfusion hcl,
                    fun hcl => Tag.noConfusion hcl, fun _ => Or.inr rfl,
                    ⟨0, by norm_num⟩, rfl, ⟨Or.inr rfl, Or.inl rfl, c3⟩, h9⟩
              | OPEN => exact ⟨h1, h2, h3, h4, h6, rfl, ⟨c1, c2, c3⟩, h9⟩
              | CLOSED => exact ⟨h1, h2, h3, h4, h6, rfl, ⟨c1, c2, c3⟩, h9⟩
              | RECONNECTING => exact ⟨h1, h2, h3, h4, h6, rfl, ⟨c1, c2, c3⟩, h9⟩
  | sockClose =>
      cases ws with
      | none => exact ⟨h1, h2, h3, h4, h6, rfl, ⟨c1, c2, c3⟩, h9⟩
      | some s =>
          obtain ⟨surl, sOpen, sClose, sPong, sl, scl⟩ := s
          obtain ⟨o1, o2, o3⟩ := h9 ⟨surl, sOpen, sClose, sPong, sl, scl⟩ rfl
          subst o1; subst o2; subst o3
          cases sl with
          | false => exact ⟨h1, h2, h3, h4, h6, rfl, ⟨c1, c2, c3⟩, h9⟩
          | true =>
              cases tag with
              | INITIAL => exact ⟨h1, h2, h3, h4, h6, rfl, ⟨c1, c2, c3⟩, h9⟩
              | CONNECTING =>
                  obtain ⟨n, hn⟩ := h6
                  simp [stepEv, transition, update, runEffects, effectFuel,
                    applyEffect, Timers.clear, Timers.get, Timers.set, Timers.empty,
                    clearAllTimeoutsEffects, clearTimeoutEffect, scheduleConnect]
                  exact ⟨fun hw => Option.noConfusion hw, fun hcl => Tag.noConfusion hcl,
                    fun hcl => Tag.noConfusion hcl, fun hcl => Tag.noConfusion hcl,
                    ⟨n + 1, by rw [hn]; push_cast; ring⟩, rfl,
                    ⟨Or.inl rfl, Or.inl rfl, Or.inr rfl⟩, h9⟩
              | OPEN =>
                  obtain ⟨n, hn⟩ := h6
                  simp [stepEv, transition, update, runEffects, effectFuel,
                    applyEffect, Timers.clear, Timers.get, Timers.set, Timers.empty,
                    clearAllTimeoutsEffects, clearTimeoutEffect, scheduleConnect]
                  exact ⟨fun hw => Option.noConfusion hw, fun hcl => Tag.noConfusion hcl,
                    fun hcl => Tag.noConfusion hcl, fun hcl => Tag.noConfusion hcl,
                    ⟨n + 1, by rw [hn]; push_cast; ring⟩, rfl,
                    ⟨Or.inl rfl, Or.inl rfl, Or.inr rfl⟩, h9⟩
              | CLOSED =>
                  have hc : tc = none := h3 rfl
                  subst hc
                  obtain ⟨n, hn⟩ := h6
                  simp [stepEv, transition, update, runEffects, effectFuel,
                    applyEffect, Timers.clear, Timers.get, Timers.set,
                    scheduleConnect]
                  exact ⟨fun hw => Option.noConfusion hw, fun hcl => Tag.noConfusion hcl,
                    fun hcl => Tag.noConfusion hcl, fun hcl => Tag.noConfusion hcl,
                    ⟨n + 1, by rw [hn]; push_cast; ring⟩, rfl,
                    ⟨c1, c2, Or.inr rfl⟩, h9⟩
              | RECONNECTING => exact ⟨h1, h2, h3, h4, h6, rfl, ⟨c1, c2, c3⟩, h9⟩
  | sockMessage =>
      cases ws with
      | none => exact ⟨h1, h2, h3, h4, h6, rfl, ⟨c1, c2, c3⟩, h9⟩
      | some s =>
          obtain ⟨surl, sOpen, sClose, sPong, sl, scl⟩ := s
          obtain ⟨o1, o2, o3⟩ := h9 ⟨surl, sOpen, sClose, sPong, sl, scl⟩ rfl
          subst o1; subst o2; subst o3
          cases sl with
          | false => exact ⟨h1, h2, h3, h4, h6, rfl, ⟨c1, c2, c3⟩, h9⟩
          | true =>
              cases tag with
              | INITIAL => exact ⟨h1, h2, h3, h4, h6, rfl, ⟨c1, c2, c3⟩, h9⟩
              | CONNECTING => exact ⟨h1, h2, h3, h4, h6, rfl, ⟨c1, c2, c3⟩, h9⟩
              | OPEN =>
                  simp [stepEv, transition, update, runEffects, effectFuel,
                    applyEffect, Timers.clear, Timers.get, Timers.set,
                    schedulePing]
                  exact ⟨fun hw => Option.noConfusion hw, fun hcl => Tag.noConfusion hcl,
                    fun hcl => Tag.noConfusion hcl, fun _ => Or.inr rfl, h6, rfl,
                    ⟨Or.inr rfl, Or.inl rfl, c3⟩, h9⟩
              | CLOSED => exact ⟨h1, h2, h3, h4, h6, rfl, ⟨c1, c2, c3⟩, h9⟩
              | RECONNECTING => exact ⟨h1, h2, h3, h4, h6, rfl, ⟨c1, c2, c3⟩, h9⟩

/-- Every reachable machine satisfies the invariant. -/
theorem invReachable {config : Config} {seed : ℚ} {m : Machine}
    (h : Reachable config seed m) : Inv m := by
  induction h with
  | init => exact invInit config seed
  | step ev _ ih => exact invStep ev _ ih

/-- Recognizer for CONNECT_WS effects. -/
def isConnectWs : Effect → Bool
  | Effect.CONNECT_WS _ _ _ _ => true
  | _ => false

/-- A sample context used to instantiate universally quantified theorems. -/
def ctxA : Context :=
  { url := "ws://localhost:1234"
    reconnectAttempt := 5
    randSeed := 0
    pingTimeoutMillis := 1
    pongTimeoutMillis := 1
    backoffFn := calcBackoff }

/-- A sample config used to instantiate universally quantified theorems. -/
def cfg0 : Config :=
  { url := "ws://localhost:1234"
    pingTimeoutMillis := 5
    pongTimeoutMillis := 5
    backoffFn := calcBackoff
    pingMsg := none
    hasOnStateChange := true }

/-- C1: for every state and action, update returns exactly the
(new state, ordered effect list) given by the transition table of spec
section 4.2 on the nine listed combinations, and the unchanged state with an
empty effect list on every unlisted combination. -/
theorem C1_update_matches_table (action : Action) (state : State) :
    update action state = updateSpecTable action state := by
  obtain ⟨tag, ctx⟩ := state
  cases tag <;> cases action <;> rfl

/-- C2: calcBackoff returns 0 at attempt 0 for any seed and cap; for every
attempt at least 1 it returns min(maxVal, attempt squared times 1000) plus
2000 times randSeed, the cap being applied before the jitter is added; and
the spec's two concrete instances hold, as does an instance exceeding the
default cap. -/
theorem C2_calcBackoff (randSeed maxVal : ℚ) (h0 : 0 ≤ randSeed)
    (h1 : randSeed < 1) :
    calcBackoffMax 0 randSeed maxVal = 0 ∧
    (∀ attempt : ℚ, 1 ≤ attempt →
      calcBackoffMax attempt randSeed maxVal =
        min maxVal (attempt ^ 2 * 1000) + 2000 * randSeed) ∧
    calcBackoff 1 (1/2) = 2000 ∧
    calcBackoffMax 6 (1/2) 60000 = 37000 ∧
    calcBackoff 6 (1/2) = 31000 := by
  refine ⟨by simp [calcBackoffMax], ?_, ?_, ?_, ?_⟩
  · intro attempt ha
    have hne : attempt ≠ 0 := by intro hz; rw [hz] at ha; norm_num at ha
    simp [calcBackoffMax, hne]
  · norm_num [calcBackoff, calcBackoffMax]
  · norm_num [calcBackoffMax]
  · norm_num [calcBackoff, calcBackoffMax]

/-- C2 witness: the theorem instantiated at randSeed one half, cap 30000 and
attempt 2. -/
theorem C2_calcBackoff_witness :
    calcBackoffMax 0 (1/2) 30000 = 0 ∧
    calcBackoffMax 2 (1/2) 30000 = min 30000 (2 ^ 2 * 1000) + 2000 * (1/2) :=
  ⟨(C2_calcBackoff (1/2) 30000 (by norm_num) (by norm_num)).1,
   (C2_calcBackoff (1/2) 30000 (by norm_num) (by norm_num)).2.1 2 (by norm_num)⟩

/-- C3: the facade object returned by wsMachine exposes exactly connect,
currentState and disconnect; it has no send operation at all (the
repository's own tests call machine.send and expect an open-state error, and
the README documents ws.send, so the claim records intent the code does not
implement). -/
theorem C3_no_send_operation :
    wsMachineOps = ["connect", "currentState", "disconnect"] ∧
    "send" ∉ wsMachineOps := by
  exact ⟨rfl, by decide⟩

/-- C4: the interpreter's message handler filters against the hardcoded
string "pong" only: the custom pong payload "MyPong" is forwarded to
onMessage (the repository's own custom ping/pong test expects it swallowed),
while only the literal "pong" is withheld. -/
theorem C4_hardcoded_pong_filter :
    onMessageForwards "MyPong" = true ∧ onMessageForwards "pong" = false := by
  exact ⟨rfl, rfl⟩

/-- C5: on every reachable machine, disconnect removes the state-change
observer, leaves every timer slot clear, leaves the state INITIAL with
reconnectAttempt 0, and closes the socket (detaching its listeners) when one
exists; when no socket exists, the machine is still pristine and disconnect
changes nothing but the observer flag. -/
theorem C5_disconnect_resets {config : Config} {seed : ℚ} {m : Machine}
    (h : Reachable config seed m) :
    (disconnect m).observer = false ∧
    (disconnect m).timeouts = Timers.empty ∧
    (disconnect m).wsState.tag = Tag.INITIAL ∧
    (disconnect m).wsState.ctx.reconnectAttempt = 0 ∧
    (∀ s, m.ws = some s →
      (disconnect m).ws = some { s with listeners := false, closed := true }) ∧
    (m.ws = none → disconnect m = { m with observer := false }) := by
  have hi := invReachable h
  obtain ⟨ws, ⟨tp, tq, tc⟩, ⟨tag, ctx⟩, obs, dup⟩ := m
  cases ws with
  | some s =>
      exact ⟨rfl, rfl, rfl, rfl,
        fun s2 hs => by injection hs with h2; subst h2; rfl,
        fun hn => Option.noConfusion hn⟩
  | none =>
      obtain ⟨htag, hp, hq, hc, hra⟩ := hi.wsNone rfl
      subst hp; subst hq; subst hc; subst htag
      exact ⟨rfl, rfl, rfl, hra, fun s2 hs => Option.noConfusion hs, fun _ => rfl⟩

/-- C5 witness: the theorem instantiated at the machine obtained by one
connect() call on a fresh instance (which owns a live socket). -/
theorem C5_disconnect_resets_witness :
    (disconnect (stepEv Ev.connectCall (wsMachineInit cfg0 0))).observer = false ∧
    (disconnect (stepEv Ev.connectCall (wsMachineInit cfg0 0))).timeouts =
      Timers.empty ∧
    (disconnect (stepEv Ev.connectCall (wsMachineInit cfg0 0))).wsState.tag =
      Tag.INITIAL ∧
    (disconnect (stepEv Ev.connectCall
      (wsMachineInit cfg0 0))).wsState.ctx.reconnectAttempt = 0 ∧
    (∀ s, (stepEv Ev.connectCall (wsMachineInit cfg0 0)).ws = some s →
      (disconnect (stepEv Ev.connectCall (wsMachineInit cfg0 0))).ws =
        some { s with listeners := false, closed := true }) ∧
    ((stepEv Ev.connectCall (wsMachineInit cfg0 0)).ws = none →
      disconnect (stepEv Ev.connectCall (wsMachineInit cfg0 0)) =
        { stepEv Ev.connectCall (wsMachineInit cfg0 0) with observer := false }) :=
  C5_disconnect_resets (Reachable.step Ev.connectCall Reachable.init)

/-- C6 counterexample: a config whose backoffFn is absent at runtime yields a
machine with no backoff function at all; the built-in calcBackoff is not
substituted. -/
theorem C6_counterexample :
    ¬ (wsMachineBackoffFn ⟨none⟩ = some calcBackoff) := by
  simp [wsMachineBackoffFn]

/-- C6 amended: backoffFn is a required Config field and wsMachine installs
exactly the function passed in, applying no default anywhere; a config whose
backoffFn is absent at runtime leaves the machine with none. -/
theorem C6_no_default_backoff :
    (∀ c : ConfigRT, wsMachineBackoffFn c = c.backoffFn) ∧
    (∀ (config : Config) (seed : ℚ),
      (wsMachineInit config seed).wsState.ctx.backoffFn = config.backoffFn) ∧
    wsMachineBackoffFn ⟨none⟩ = none :=
  ⟨fun _ => rfl, fun _ _ => rfl, rfl⟩

/-- C7: update changes reconnectAttempt exactly in CONNECTING+OPEN (reset to
0 whatever the prior value) and CLOSED+RECONNECT (increment by exactly 1); a
RECONNECTING state is newly produced only by CLOSED+RECONNECT; and on every
reachable machine reconnectAttempt is a natural number, hence a non-negative
integer. -/
theorem C7_reconnectAttempt :
    (∀ (a : Action) (s : State),
      ((update a s).1).ctx.reconnectAttempt =
        (if s.tag = Tag.CONNECTING ∧ a = Action.OPEN then 0
         else if s.tag = Tag.CLOSED ∧ a = Action.RECONNECT then
           s.ctx.reconnectAttempt + 1
         else s.ctx.reconnectAttempt)) ∧
    (∀ (a : Action) (s : State), s.tag ≠ Tag.RECONNECTING →
      ((update a s).1).tag = Tag.RECONNECTING →
      s.tag = Tag.CLOSED ∧ a = Action.RECONNECT ∧
      ((update a s).1).ctx.reconnectAttempt = s.ctx.reconnectAttempt + 1) ∧
    (∀ (config : Config) (seed : ℚ) (m : Machine), Reachable config seed m →
      ∃ n : ℕ, m.wsState.ctx.reconnectAttempt = (n : ℚ) ∧
        0 ≤ m.wsState.ctx.reconnectAttempt) := by
  refine ⟨?_, ?_, ?_⟩
  · intro a s
    obtain ⟨tag, ctx⟩ := s
    cases tag <;> cases a <;> simp [update, connect]
  · intro a s hne hr
    obtain ⟨tag, ctx⟩ := s
    cases tag <;> cases a <;> simp_all [update, connect]
  · intro config seed m hm
    obtain ⟨n, hn⟩ := (invReachable hm).raNat
    exact ⟨n, hn, by rw [hn]; positivity⟩

/-- C7 witness: the theorem instantiated at a CLOSED state with
reconnectAttempt 5 and at a fresh machine. -/
theorem C7_reconnectAttempt_witness :
    ((update Action.RECONNECT (⟨Tag.CLOSED, ctxA⟩ : State)).1).ctx.reconnectAttempt
      = ctxA.reconnectAttempt + 1 ∧
    (∃ n : ℕ, (wsMachineInit cfg0 0).wsState.ctx.reconnectAttempt = (n : ℚ) ∧
      0 ≤ (wsMachineInit cfg0 0).wsState.ctx.reconnectAttempt) :=
  ⟨(C7_reconnectAttempt.2.1 Action.RECONNECT ⟨Tag.CLOSED, ctxA⟩
      (by decide) rfl).2.2,
   C7_reconnectAttempt.2.2 cfg0 0 _ Reachable.init⟩

/-- C8: along every event sequence from a fresh machine, every
SCHEDULE_TIMEOUT the interpreter executes finds its key dead (any earlier
timer for the key was cleared earlier in the same effect batch or a prior
one, or had already fired and been consumed): the dup flag, raised exactly
when a schedule overwrites a live timer, never rises, so at most one live
timer exists per key at any instant. -/
theorem C8_no_duplicate_timers {config : Config} {seed : ℚ} {m : Machine}
    (h : Reachable config seed m) : m.dup = false :=
  (invReachable h).noDup

/-- C8 witness: the theorem instantiated after a connect() call, the socket
opening, a ping timer firing and a heartbeat message, a path that schedules
ping and pong timers. -/
theorem C8_no_duplicate_timers_witness :
    (stepEv Ev.sockMessage (stepEv (Ev.timerFire TimeoutKey.ping)
      (stepEv Ev.sockOpen (stepEv Ev.connectCall
        (wsMachineInit cfg0 0))))).dup = false :=
  C8_no_duplicate_timers (Reachable.step Ev.sockMessage
    (Reachable.step (Ev.timerFire TimeoutKey.ping)
      (Reachable.step Ev.sockOpen
        (Reachable.step Ev.connectCall Reachable.init))))

/-- C9: PONG_TIMEOUT in OPEN leaves the state untouched and emits exactly
TRIGGER_ACTION(CLOSE) then TRIGGER_ACTION(RECONNECT); processing CLOSE in
OPEN reaches CLOSED and processing RECONNECT in CLOSED reaches RECONNECTING,
the two observable state changes, and neither of those transitions emits any
TRIGGER_ACTION; indeed no (state, action) pair other than OPEN+PONG_TIMEOUT
emits a TRIGGER_ACTION at all, so no trigger chain is longer than two
actions. -/
theorem C9_pong_timeout_chain :
    (∀ s : State, s.tag = Tag.OPEN →
      update Action.PONG_TIMEOUT s =
        (s, [Effect.TRIGGER_ACTION Action.CLOSE,
             Effect.TRIGGER_ACTION Action.RECONNECT])) ∧
    (∀ s : State, s.tag = Tag.OPEN →
      ((update Action.CLOSE s).1).tag = Tag.CLOSED ∧
      (∀ e ∈ (update Action.CLOSE s).2, ∀ b, e ≠ Effect.TRIGGER_ACTION b)) ∧
    (∀ s : State, s.tag = Tag.CLOSED →
      ((update Action.RECONNECT s).1).tag = Tag.RECONNECTING ∧
      (∀ e ∈ (update Action.RECONNECT s).2, ∀ b, e ≠ Effect.TRIGGER_ACTION b)) ∧
    (∀ (a : Action) (s : State), (∃ b, Effect.TRIGGER_ACTION b ∈ (update a s).2) →
      s.tag = Tag.OPEN ∧ a = Action.PONG_TIMEOUT) := by
  refine ⟨?_, ?_, ?_, ?_⟩
  · intro s hs
    obtain ⟨tag, ctx⟩ := s
    cases tag <;> simp_all [update]
  · intro s hs
    obtain ⟨tag, ctx⟩ := s
    cases tag <;> simp_all [update, clearAllTimeoutsEffects, clearTimeoutEffect]
  · intro s hs
    obtain ⟨tag, ctx⟩ := s
    cases tag <;> simp_all [update, scheduleConnect]
  · intro a s hex
    obtain ⟨b, hb⟩ := hex
    obtain ⟨tag, ctx⟩ := s
    cases tag <;> cases a <;>
      simp_all [update, connect, clearAllTimeoutsEffects, clearTimeoutEffect,
        scheduleConnect, schedulePing, waitForPong]

/-- C9 witness: the trigger chain at a concrete OPEN state. -/
theorem C9_pong_timeout_chain_witness :
    update Action.PONG_TIMEOUT (⟨Tag.OPEN, ctxA⟩ : State) =
      (⟨Tag.OPEN, ctxA⟩,
       [Effect.TRIGGER_ACTION Action.CLOSE,
        Effect.TRIGGER_ACTION Action.RECONNECT]) ∧
    ((update Action.CLOSE (⟨Tag.OPEN, ctxA⟩ : State)).1).tag = Tag.CLOSED ∧
    ((update Action.RECONNECT (⟨Tag.CLOSED, ctxA⟩ : State)).1).tag =
      Tag.RECONNECTING :=
  ⟨C9_pong_timeout_chain.1 ⟨Tag.OPEN, ctxA⟩ rfl,
   (C9_pong_timeout_chain.2.1 ⟨Tag.OPEN, ctxA⟩ rfl).1,
   (C9_pong_timeout_chain.2.2.1 ⟨Tag.CLOSED, ctxA⟩ rfl).1⟩

/-- C10: the effect list of update contains a CONNECT_WS exactly when the
transition is INITIAL+CONNECT or RECONNECTING+CONNECT, in which case the
batch is exactly CLEAR_TIMEOUT(connect) followed by a single CONNECT_WS, the
last effect, wired with onOpen OPEN, onClose CLOSE and onPongMessage
HEARTBEAT. -/
theorem C10_connect_ws_emission :
    (∀ (a : Action) (s : State),
      (update a s).2.countP (fun e => isConnectWs e) =
        (if (s.tag = Tag.INITIAL ∨ s.tag = Tag.RECONNECTING) ∧ a = Action.CONNECT
         then 1 else 0)) ∧
    (∀ s : State, s.tag = Tag.INITIAL ∨ s.tag = Tag.RECONNECTING →
      update Action.CONNECT s =
        (⟨Tag.CONNECTING, s.ctx⟩,
         [Effect.CLEAR_TIMEOUT TimeoutKey.connect,
          Effect.CONNECT_WS s.ctx.url Action.OPEN Action.CLOSE
            Action.HEARTBEAT])) := by
  constructor
  · intro a s
    obtain ⟨tag, ctx⟩ := s
    cases tag <;> cases a <;> rfl
  · intro s hs
    obtain ⟨tag, ctx⟩ := s
    rcases hs with hs | hs <;> simp_all [update, connect]

/-- C10 witness: the emission at a concrete INITIAL state. -/
theorem C10_connect_ws_emission_witness :
    update Action.CONNECT (⟨Tag.INITIAL, ctxA⟩ : State) =
      (⟨Tag.CONNECTING, ctxA⟩,
       [Effect.CLEAR_TIMEOUT TimeoutKey.connect,
        Effect.CONNECT_WS ctxA.url Action.OPEN Action.CLOSE
          Action.HEARTBEAT]) :=
  C10_connect_ws_emission.2 ⟨Tag.INITIAL, ctxA⟩ (Or.inl rfl)

end WsM
